import Mathlib

/-
Verification of the cancellation-propagation layer of a MySQL client wrapper.

The development shallowly embeds the cancellation-specific logic of the
library: session-identity capture at connection acquisition, the
kill-command dispatch (direct and proxy-verified variants), the detached
race between an operation and its cancellation signal, the reactive checks
on live row cursors, and the unleak lifecycle of handles.

Modelling conventions:
- pools and physical connections are identified by natural-number handles;
- the behaviour of the external database (results of queries, errors of
  commands, outcome of the race between the watcher goroutine and the
  worker goroutine, routing of killer-pool acquisitions behind a proxy,
  and the number of retry-loop iterations that fit into a timeout) is
  supplied by explicit oracle parameters;
- every observable interaction with a pool or connection is recorded in a
  trace of events, so sending (or not sending) a kill command is provable;
- a Go method that mutates its receiver is embedded as a function
  returning the updated value; a nil interface dereference, which would
  panic in Go, is modelled by the distinguished error value.
-/

deriving instance DecidableEq for Except

namespace MysqlGo

/-- Errors visible in the model: the two context errors, arbitrary
driver or server errors (indexed by a code), and the distinguished value
standing for a nil-pool dereference. -/
inductive Err
  | canceled
  | deadlineExceeded
  | sqlErr (code : Nat)
  | nilPool
deriving DecidableEq, Repr

/-- A pool of physical connections, identified abstractly. -/
abbrev PoolId := Nat

/-- A physical connection checked out of a pool, identified abstractly. -/
abbrev ConnRef := Nat

/-- An underlying transaction handle of the collaborator library. -/
abbrev TxRef := Nat

/-- An underlying prepared-statement handle of the collaborator library. -/
abbrev StmtRef := Nat

/-- An abstract affected-rows summary (stdSql.Result). -/
abbrev ExecResult := Nat

/-- A command issued on a pool: a plain Exec, or an ExecContext under a
context carrying the given timeout. -/
inductive PoolCmd
  | exec (query arg : String)
  | execTimeout (kto : Int) (query arg : String)
deriving DecidableEq, Repr

/-- Observable interactions with pools and connections. -/
inductive Event
  | cmd (p : PoolId) (c : PoolCmd)
  | connAcquire (p : PoolId) (n : Nat)
  | connRelease (p : PoolId) (n : Nat)
  | connQuery (p : PoolId) (n : Nat) (q : String)
  | connExec (p : PoolId) (n : Nat) (c : PoolCmd)
  | setMaxOpen (p : PoolId) (n : Nat)
  | closePool (p : PoolId)
deriving DecidableEq, Repr

/-- The response of the environment to a pool-level command: the error
(if any) that the Exec returns. -/
abbrev Resp := PoolId → PoolCmd → Option Err

/-- The statement text sent by the killers (kill.go). -/
def killQueryStmt : String := "KILL QUERY ?"

/-- The session-identity query issued at acquisition (db.go). -/
def connectionIDQuery : String := "SELECT CONNECTION_ID()"

/-- The server-identity query of the proxy-verified kill (rows.go,
determineServerID). -/
def serverUUIDQuery : String := "SELECT @@global.server_uuid"

/-- Modelled from the spec: the database-flavor flag value naming the
flavor that does not expose a queryable server identity. The constant is
referenced by the proxy-verified kill in rows.go but its defining source
file is not part of the corpus; only equality with it matters here. -/
def MariaDB : String := "mariadb"

/-- Embeds kill (kill.go, kto variant): no-op on an empty session
identifier, otherwise a single KILL QUERY command on the pool, plain when
kto is zero and under a timeout context otherwise. A nil pool (possible
in Go because the parameter is an interface) would panic; this is
modelled by the distinguished error. -/
def kill (resp : Resp) (db : Option PoolId) (connectionID : String) (kto : Int) :
    Option Err × List Event :=
  if connectionID = "" then (none, [])
  else
    match db with
    | none => (some Err.nilPool, [])
    | some p =>
      if kto = 0 then
        let c := PoolCmd.exec killQueryStmt connectionID
        (resp p c, [Event.cmd p c])
      else
        let c := PoolCmd.execTimeout kto killQueryStmt connectionID
        (resp p c, [Event.cmd p c])

/-- Embeds determineServerID (rows.go): the MariaDB flavor reports an
empty identity without error; otherwise the result of the identity query
on the given connection is returned as is. -/
def determineServerID (flavor : String) (idRes : Except Err String) : Except Err String :=
  if flavor = MariaDB then Except.ok "" else idRes

/-- One killer-pool acquisition attempt in the proxy-verified retry loop:
either the acquisition itself fails, or it yields a connection together
with the outcome of the server-identity query on it. -/
inductive AcqOutcome
  | connErr
  | conn (idRes : Except Err String)
deriving DecidableEq, Repr

/-- Embeds the retry loop of the proxy-verified kill (rows.go). The
oracle acqs gives the outcome of the i-th killer-pool acquisition;
deadline is the number of loop iterations that the killTimeout context
allows before ctx.Err() fires at the top of the loop. Each iteration acquires a
connection, queries its server identity, and releases it; on a mismatch
or a failed identity query it retries; on a match it issues the KILL
QUERY command as a pool-level Exec (the source calls db.Exec, not an
exec on the acquired connection) and returns its result. -/
def killProxyLoop (resp : Resp) (db : PoolId) (connectionID serverID flavor : String)
    (acqs : Nat → AcqOutcome) (i : Nat) (deadline : Nat) : Option Err × List Event :=
  match deadline with
  | 0 => (some Err.deadlineExceeded, [])
  | d + 1 =>
    match acqs i with
    | AcqOutcome.connErr =>
      killProxyLoop resp db connectionID serverID flavor acqs (i + 1) d
    | AcqOutcome.conn idRes =>
      match determineServerID flavor idRes with
      | Except.error _ =>
        let rest := killProxyLoop resp db connectionID serverID flavor acqs (i + 1) d
        (rest.1, Event.connAcquire db i :: Event.connQuery db i serverUUIDQuery ::
          Event.connRelease db i :: rest.2)
      | Except.ok cur =>
        if cur = "" then
          let rest := killProxyLoop resp db connectionID serverID flavor acqs (i + 1) d
          (rest.1, Event.connAcquire db i :: Event.connQuery db i serverUUIDQuery ::
            Event.connRelease db i :: rest.2)
        else if cur ≠ serverID then
          let rest := killProxyLoop resp db connectionID serverID flavor acqs (i + 1) d
          (rest.1, Event.connAcquire db i :: Event.connQuery db i serverUUIDQuery ::
            Event.connRelease db i :: rest.2)
        else
          let c := PoolCmd.exec killQueryStmt connectionID
          (resp db c, [Event.connAcquire db i, Event.connQuery db i serverUUIDQuery,
            Event.cmd db c, Event.connRelease db i])

/-- Embeds kill (rows.go, proxy-protection variant): no-op on an empty
session identifier; without a killTimeout a single direct KILL QUERY on
the pool; with a killTimeout, a no-op success for the MariaDB flavor and
otherwise the bounded verification retry loop. -/
def killP (resp : Resp) (db : PoolId) (connectionID serverID flavor : String)
    (killTimeout : Option Int) (acqs : Nat → AcqOutcome) (deadline : Nat) :
    Option Err × List Event :=
  if connectionID = "" then (none, [])
  else
    match killTimeout with
    | none =>
      let c := PoolCmd.exec killQueryStmt connectionID
      (resp db c, [Event.cmd db c])
    | some _ =>
      if flavor = MariaDB then (none, [])
      else killProxyLoop resp db connectionID serverID flavor acqs 0 deadline

/-- A prepared-statement handle (stmt.go, kto variant): the underlying
statement, the killer-pool reference, the bound session identifier and
the kill-timeout. -/
structure Stmt where
  stmt : StmtRef
  killerPool : Option PoolId
  connectionID : String
  kto : Int
deriving DecidableEq, Repr

/-- Embeds Stmt.Unleak: clears the killer-pool reference, the session
identifier and the kill-timeout. -/
def Stmt.Unleak (s : Stmt) : Stmt :=
  { s with killerPool := none, connectionID := "", kto := 0 }

/-- A connection handle (conn.go, kto variant). -/
structure Conn where
  conn : ConnRef
  killerPool : Option PoolId
  connectionID : String
  kto : Int
deriving DecidableEq, Repr

/-- Embeds Conn.Unleak: clears the killer-pool reference and the session
identifier (the kill-timeout field is not touched in the source). -/
def Conn.Unleak (c : Conn) : Conn :=
  { c with killerPool := none, connectionID := "" }

/-- A transaction handle (tx.go): underlying transaction, killer-pool
reference, session identifier, kill-timeout, and the mutex-protected
list of statement handles prepared through it. -/
structure Tx where
  tx : TxRef
  killerPool : Option PoolId
  connectionID : String
  kto : Int
  stmts : List Stmt
deriving DecidableEq, Repr

/-- Embeds Tx.Unleak: clears the killer-pool reference, the session
identifier and the kill-timeout (the stmts list is not touched). -/
def Tx.Unleak (tx : Tx) : Tx :=
  { tx with killerPool := none, connectionID := "", kto := 0 }

/-- The outcome of the race run by the detached-results wrapper: either
the watcher goroutine observes the cancellation signal and wins the
outer select (carrying the value of ctx.Err at that moment), or the
worker goroutine delivers the result of the underlying call first. -/
inductive RaceOutcome (R : Type)
  | canceledFirst (ctxErr : Err)
  | completed (res : Except Err R)

/-- What the caller of a wrapped call observes: either the call returns
with a result, or it never returns at all. The latter happens on the
cancellation path of the ExecContext wrappers: once the watcher
goroutine has taken the ctx.Done branch and exited, the deferred send on
the unbuffered returnedChan has no receiver left — the watcher was its
only receiver and the worker never touches that channel — so the send,
and with it the return of the wrapper, blocks forever. -/
inductive CallResult (R : Type)
  | returns (res : Except Err R)
  | blocked
deriving DecidableEq, Repr

/-- Embeds Conn.ExecContext (conn.go, kto variant). When the worker
goroutine finishes first its result is passed through, the deferred
returnedChan send is received by the still-waiting watcher, and the call
returns; no kill is issued. When cancellation is observed first the
watcher invokes kill with the bound killer pool, session identifier and
kill-timeout and hands ctx.Err to the outer select — but the watcher
goroutine then exits, so the deferred send on the unbuffered
returnedChan blocks forever and the call never returns to the caller:
the ctx.Err that reached the outer select is lost in the deadlocked
return. -/
def Conn.ExecContext (resp : Resp) (c : Conn) (outcome : RaceOutcome ExecResult) :
    CallResult ExecResult × List Event :=
  match outcome with
  | RaceOutcome.canceledFirst _ =>
    (CallResult.blocked, (kill resp c.killerPool c.connectionID c.kto).2)
  | RaceOutcome.completed (Except.error e) => (CallResult.returns (Except.error e), [])
  | RaceOutcome.completed (Except.ok r) => (CallResult.returns (Except.ok r), [])

/-- Embeds Tx.ExecContext (tx.go): same race and same deadlocked
cancellation path as Conn.ExecContext, with the fields of the
transaction handle. -/
def Tx.ExecContext (resp : Resp) (tx : Tx) (outcome : RaceOutcome ExecResult) :
    CallResult ExecResult × List Event :=
  match outcome with
  | RaceOutcome.canceledFirst _ =>
    (CallResult.blocked, (kill resp tx.killerPool tx.connectionID tx.kto).2)
  | RaceOutcome.completed (Except.error e) => (CallResult.returns (Except.error e), [])
  | RaceOutcome.completed (Except.ok r) => (CallResult.returns (Except.ok r), [])

/-- Embeds Stmt.ExecContext (stmt.go, kto variant): same race and same
deadlocked cancellation path, with the fields of the statement
handle. -/
def Stmt.ExecContext (resp : Resp) (s : Stmt) (outcome : RaceOutcome ExecResult) :
    CallResult ExecResult × List Event :=
  match outcome with
  | RaceOutcome.canceledFirst _ =>
    (CallResult.blocked, (kill resp s.killerPool s.connectionID s.kto).2)
  | RaceOutcome.completed (Except.error e) => (CallResult.returns (Except.error e), [])
  | RaceOutcome.completed (Except.ok r) => (CallResult.returns (Except.ok r), [])

/-- Embeds Conn.Close: on an error of the underlying close the function
returns early and the handle is left untouched; only on success is
Unleak reached. The oracle argument is the result of the underlying
close. -/
def Conn.Close (c : Conn) (underlying : Option Err) : Option Err × Conn :=
  match underlying with
  | some e => (some e, c)
  | none => (none, c.Unleak)

/-- Embeds Stmt.Close: same early-return shape as Conn.Close. -/
def Stmt.Close (s : Stmt) (underlying : Option Err) : Option Err × Stmt :=
  match underlying with
  | some e => (some e, s)
  | none => (none, s.Unleak)

/-- Embeds Tx.Commit: the underlying commit result is returned, the
transaction handle is unleaked unconditionally, and the deferred loop
unleaks every statement handle recorded in the stmts list. -/
def Tx.Commit (tx : Tx) (underlying : Option Err) : Option Err × Tx :=
  let tx1 := tx.Unleak
  (underlying, { tx1 with stmts := tx1.stmts.map Stmt.Unleak })

/-- Embeds Tx.Rollback: identical unleak behaviour to Tx.Commit. -/
def Tx.Rollback (tx : Tx) (underlying : Option Err) : Option Err × Tx :=
  let tx1 := tx.Unleak
  (underlying, { tx1 with stmts := tx1.stmts.map Stmt.Unleak })

/-- Embeds Conn.BeginTx (conn.go, kto variant): on success the
transaction inherits the killer pool and session identifier of the
connection; the kto field is absent from the struct literal in the
source and therefore takes the zero value. -/
def Conn.BeginTx (c : Conn) (underlying : Except Err TxRef) : Except Err Tx :=
  match underlying with
  | Except.error e => Except.error e
  | Except.ok t =>
    Except.ok
      { tx := t, killerPool := c.killerPool, connectionID := c.connectionID,
        kto := 0, stmts := [] }

/-- Embeds Conn.Begin: delegates to BeginTx with a background context. -/
def Conn.Begin (c : Conn) (underlying : Except Err TxRef) : Except Err Tx :=
  c.BeginTx underlying

/-- Embeds Conn.PrepareContext (conn.go, kto variant): preparation is
not raced; on success the statement inherits killer pool, session
identifier and kill-timeout from the connection. -/
def Conn.PrepareContext (c : Conn) (underlying : Except Err StmtRef) : Except Err Stmt :=
  match underlying with
  | Except.error e => Except.error e
  | Except.ok r =>
    Except.ok
      { stmt := r, killerPool := c.killerPool, connectionID := c.connectionID,
        kto := c.kto }

/-- Embeds Tx.PrepareContext: on success the derived statement inherits
the fields of the transaction and is appended to the stmts list. -/
def Tx.PrepareContext (tx : Tx) (underlying : Except Err StmtRef) : Except Err Stmt × Tx :=
  match underlying with
  | Except.error e => (Except.error e, tx)
  | Except.ok r =>
    let st : Stmt :=
      { stmt := r, killerPool := tx.killerPool,
        connectionID := tx.connectionID, kto := tx.kto }
    (Except.ok st, { tx with stmts := tx.stmts ++ [st] })

/-- Embeds Tx.StmtContext: always yields a derived statement inheriting
the fields of the transaction and appended to the stmts list. -/
def Tx.StmtContext (tx : Tx) (r : StmtRef) : Stmt × Tx :=
  let st : Stmt :=
    { stmt := r, killerPool := tx.killerPool,
      connectionID := tx.connectionID, kto := tx.kto }
  (st, { tx with stmts := tx.stmts ++ [st] })

/-- The dual-pool database handle (db.go, named DB in the source; the
name DBM avoids the clash with its primary-pool field, which the source
also names DB): primary pool, optional killer pool, and the configured
kill-timeout. -/
structure DBM where
  DB : PoolId
  KillerPool : Option PoolId
  KillTimeout : Int
deriving DecidableEq, Repr

/-- Embeds DB.Conn (db.go), here DBM.Conn: acquires an exclusive connection, issues the
session-identity query on it, and on a query error closes the connection
and fails; on success the handle is bound to the retrieved identifier,
the killer pool (or the primary pool when no killer pool is configured)
and the configured kill-timeout. The oracles are the outcome of the
acquisition and of the identity query. -/
def DBM.Conn (db : DBM) (acq : Except Err ConnRef) (idRes : Except Err String) :
    Except Err Conn × List Event :=
  match acq with
  | Except.error e => (Except.error e, [])
  | Except.ok cn =>
    match idRes with
    | Except.error e =>
      (Except.error e, [Event.connAcquire db.DB cn,
        Event.connQuery db.DB cn connectionIDQuery, Event.connRelease db.DB cn])
    | Except.ok id =>
      match db.KillerPool with
      | none =>
        (Except.ok
           { conn := cn, killerPool := some db.DB, connectionID := id,
             kto := db.KillTimeout },
         [Event.connAcquire db.DB cn, Event.connQuery db.DB cn connectionIDQuery])
      | some kp =>
        (Except.ok
           { conn := cn, killerPool := some kp, connectionID := id,
             kto := db.KillTimeout },
         [Event.connAcquire db.DB cn, Event.connQuery db.DB cn connectionIDQuery])

/-- Embeds Open (db.go): the two pools are created by two goroutines of
an error group (modelled by the two independent creation outcomes; when
both fail the Bool oracle selects which failure the group reports). The
killer pool, when created, has its maximum open connections set to one.
On any failure every pool that was created is closed and no handle is
produced. -/
def Open (mpRes kpRes : Except Err PoolId) (firstErrMp : Bool) :
    Except Err DBM × List Event :=
  match mpRes, kpRes with
  | Except.ok mp, Except.ok kp =>
    (Except.ok
       { DB := mp, KillerPool := some kp, KillTimeout := 0 },
     [Event.setMaxOpen kp 1])
  | Except.error e, Except.ok kp =>
    (Except.error e, [Event.setMaxOpen kp 1, Event.closePool kp])
  | Except.ok mp, Except.error e =>
    (Except.error e, [Event.closePool mp])
  | Except.error e1, Except.error e2 =>
    (Except.error (if firstErrMp then e1 else e2), [])

/-- A live row cursor (rows.go): the value of ctx.Err as observed by the
reactive checks, and the bound killer pool, session identifier and
kill-timeout. -/
structure Rows where
  ctxErr : Option Err
  killerPool : Option PoolId
  connectionID : String
  kto : Int
deriving DecidableEq, Repr

/-- Embeds Rows.Unleak. -/
def Rows.Unleak (rs : Rows) : Rows :=
  { rs with killerPool := none, connectionID := "", kto := 0 }

/-- Embeds Rows.Close: closes the underlying cursor, invokes kill when
the cancellation signal has fired, then unleaks; the underlying error is
returned either way. -/
def Rows.Close (resp : Resp) (rs : Rows) (underlying : Option Err) :
    Option Err × Rows × List Event :=
  let evs := if rs.ctxErr.isSome then
    (kill resp rs.killerPool rs.connectionID rs.kto).2 else []
  (underlying, rs.Unleak, evs)

/-- Embeds Rows.Columns: returns the underlying result, invoking kill
when the cancellation signal has fired. -/
def Rows.Columns (resp : Resp) (rs : Rows) (underlying : Except Err (List String)) :
    Except Err (List String) × List Event :=
  let evs := if rs.ctxErr.isSome then
    (kill resp rs.killerPool rs.connectionID rs.kto).2 else []
  (underlying, evs)

/-- Embeds Rows.ColumnTypes: returns the underlying result (abstracted),
invoking kill when the cancellation signal has fired. -/
def Rows.ColumnTypes (resp : Resp) (rs : Rows) (underlying : Except Err Nat) :
    Except Err Nat × List Event :=
  let evs := if rs.ctxErr.isSome then
    (kill resp rs.killerPool rs.connectionID rs.kto).2 else []
  (underlying, evs)

/-- Embeds Rows.Scan: returns the underlying result, invoking kill when
the cancellation signal has fired. -/
def Rows.Scan (resp : Resp) (rs : Rows) (underlying : Option Err) :
    Option Err × List Event :=
  let evs := if rs.ctxErr.isSome then
    (kill resp rs.killerPool rs.connectionID rs.kto).2 else []
  (underlying, evs)

/-- Embeds Rows.Next: a direct delegation to the underlying cursor; the
source performs no cancellation check here. -/
def Rows.Next (_rs : Rows) (underlying : Bool) : Bool × List Event :=
  (underlying, [])

/-- Embeds Rows.NextResultSet: a direct delegation to the underlying
cursor; the source performs no cancellation check here. -/
def Rows.NextResultSet (_rs : Rows) (underlying : Bool) : Bool × List Event :=
  (underlying, [])

/-- Whether a pool command is the kill command addressed to session s. -/
def PoolCmd.isKillFor (s : String) : PoolCmd → Bool
  | PoolCmd.exec q a => q == killQueryStmt && a == s
  | PoolCmd.execTimeout _ q a => q == killQueryStmt && a == s

/-- Whether an event is a pool-level kill command addressed to s. -/
def Event.isKillCmdFor (s : String) : Event → Bool
  | Event.cmd _ c => c.isKillFor s
  | _ => false

/-- Whether an event is a pool-level command of any kind. -/
def Event.isCmd : Event → Bool
  | Event.cmd _ _ => true
  | _ => false

/-- Whether an event is a pool-level command under a timeout context. -/
def Event.isTimedCmd : Event → Bool
  | Event.cmd _ (PoolCmd.execTimeout _ _ _) => true
  | _ => false

/-- A statement handle whose killer-pool reference, session identifier
and kill-timeout are cleared. -/
def stmtCleared (s : Stmt) : Bool :=
  s.killerPool == none && s.connectionID == "" && s.kto == 0

/-- Formalises, following the words of the spec, the property that the
termination command was issued over the specific acquired connection n
of pool p: the trace contains a connection-level exec of the kill
command on that connection. The source never emits a connection-level
exec in the kill path (it calls db.Exec on the pool); compare the C2
theorems. -/
def killSentOverConn (trace : List Event) (p : PoolId) (n : Nat) (s : String) : Bool :=
  trace.any fun ev =>
    match ev with
    | Event.connExec p2 n2 c => p2 == p && n2 == n && c.isKillFor s
    | _ => false

/-- Whether a killer-pool acquisition reports the target server
identity. -/
def matchesServer (serverID : String) : AcqOutcome → Bool
  | AcqOutcome.conn (Except.ok s) => s == serverID
  | _ => false

/-- An environment in which every pool command succeeds. -/
def respNone : Resp := fun _ _ => none

/-- The acquisition sequence of the spec scenario: server identities
wrong, wrong, correct. -/
def acqsWWC : Nat → AcqOutcome
  | 0 => AcqOutcome.conn (Except.ok "wrong")
  | 1 => AcqOutcome.conn (Except.ok "wrong")
  | _ => AcqOutcome.conn (Except.ok "correct")

/-- Claim C7: for every pool and every kill-timeout, each kill variant
applied to an empty session identifier is a no-op returning success and
issuing no command on the pool. -/
theorem C7_kill_empty_noop :
    (∀ (resp : Resp) (db : Option PoolId) (kto : Int),
      kill resp db "" kto = (none, [])) ∧
    (∀ (resp : Resp) (db : PoolId) (serverID flavor : String)
      (killTimeout : Option Int) (acqs : Nat → AcqOutcome) (deadline : Nat),
      killP resp db "" serverID flavor killTimeout acqs deadline = (none, [])) := by
  constructor
  · intro resp db kto
    simp [kill]
  · intro resp db sid fl kt acqs d
    simp [killP]

/-- Claim C8: in proxy-verified mode (a kill-timeout supplied) the
MariaDB flavor causes the Killer to issue no termination command and to
return success, for every session identifier and timeout;
determineServerID likewise reports an empty identity without error for
that flavor. -/
theorem C8_mariadb_noop :
    (∀ (resp : Resp) (db : PoolId) (connectionID serverID : String) (kt : Int)
      (acqs : Nat → AcqOutcome) (deadline : Nat),
      killP resp db connectionID serverID MariaDB (some kt) acqs deadline = (none, [])) ∧
    (∀ idRes : Except Err String, determineServerID MariaDB idRes = Except.ok "") := by
  constructor
  · intro resp db cid sid kt acqs d
    by_cases h : cid = "" <;> simp [killP, h]
  · intro idRes
    simp [determineServerID]

/-- Claim C9: Open builds its two pools from two concurrent goroutines
of an error group, modelled by two independent creation outcomes with a
Boolean oracle selecting which failure the group reports when both fail.
On success the returned handle carries the killer pool, whose maximum
open connections were set to exactly one; on any failure every pool that
was created is closed, the error of the group is returned, and no handle
is produced. -/
theorem C9_open_pools :
    (∀ (mp kp : PoolId) (b : Bool),
      Open (Except.ok mp) (Except.ok kp) b =
        (Except.ok { DB := mp, KillerPool := some kp, KillTimeout := 0 },
         [Event.setMaxOpen kp 1])) ∧
    (∀ (e : Err) (kp : PoolId) (b : Bool),
      Open (Except.error e) (Except.ok kp) b =
        (Except.error e, [Event.setMaxOpen kp 1, Event.closePool kp])) ∧
    (∀ (mp : PoolId) (e : Err) (b : Bool),
      Open (Except.ok mp) (Except.error e) b =
        (Except.error e, [Event.closePool mp])) ∧
    (∀ (e1 e2 : Err),
      Open (Except.error e1) (Except.error e2) true = (Except.error e1, []) ∧
      Open (Except.error e1) (Except.error e2) false = (Except.error e2, [])) := by
  refine ⟨?_, ?_, ?_, ?_⟩ <;> intros <;> simp [Open]

/-- Claim C10 (implicit): the transaction returned by Conn.BeginTx (and
Conn.Begin) carries a zero kill-timeout whatever the kill-timeout of the
connection, a statement derived from such a transaction carries a zero
kill-timeout as well, and a kill with a zero kill-timeout never issues a
command under a timeout context — it runs with no time limit. -/
theorem C10_tx_zero_kto :
    (∀ (c : Conn) (t : TxRef),
      Conn.BeginTx c (Except.ok t) =
        Except.ok
          { tx := t, killerPool := c.killerPool, connectionID := c.connectionID,
            kto := 0, stmts := [] }) ∧
    (∀ (c : Conn) (u : Except Err TxRef), Conn.Begin c u = Conn.BeginTx c u) ∧
    (∀ (tx : Tx) (r : StmtRef),
      (Tx.PrepareContext { tx with kto := 0 } (Except.ok r)).1 =
        Except.ok
          { stmt := r, killerPool := tx.killerPool,
            connectionID := tx.connectionID, kto := 0 }) ∧
    (∀ (resp : Resp) (db : Option PoolId) (s : String),
      ((kill resp db s 0).2.all fun ev => !ev.isTimedCmd) = true) := by
  refine ⟨?_, ?_, ?_, ?_⟩
  · intro c t
    simp [Conn.BeginTx]
  · intro c u
    simp [Conn.Begin]
  · intro tx r
    simp [Tx.PrepareContext]
  · intro resp db s
    by_cases hs : s = ""
    · simp [kill, hs]
    · cases db with
      | none => simp [kill, hs]
      | some p => simp [kill, hs, Event.isTimedCmd]

/-- Claim C3 (amended): Tx.Commit and Tx.Rollback run the unleak
sequence unconditionally, clearing the killer-pool reference, session
identifier and kill-timeout even when the underlying call errors;
Conn.Close and Stmt.Close, by contrast, return early on an underlying
error and unleak only on success, leaving the references in place on the
error path. -/
theorem C3_terminal_unleak :
    (∀ (tx : Tx) (u : Option Err),
      (Tx.Commit tx u).1 = u ∧
      (Tx.Commit tx u).2.killerPool = none ∧
      (Tx.Commit tx u).2.connectionID = "" ∧
      (Tx.Commit tx u).2.kto = 0) ∧
    (∀ (tx : Tx) (u : Option Err),
      (Tx.Rollback tx u).1 = u ∧
      (Tx.Rollback tx u).2.killerPool = none ∧
      (Tx.Rollback tx u).2.connectionID = "" ∧
      (Tx.Rollback tx u).2.kto = 0) ∧
    (∀ c : Conn, Conn.Close c none = (none, c.Unleak)) ∧
    (∀ (c : Conn) (e : Err), Conn.Close c (some e) = (some e, c)) ∧
    (∀ s : Stmt, Stmt.Close s none = (none, s.Unleak)) ∧
    (∀ (s : Stmt) (e : Err), Stmt.Close s (some e) = (some e, s)) := by
  refine ⟨?_, ?_, ?_, ?_, ?_, ?_⟩ <;> intros <;>
    simp [Tx.Commit, Tx.Rollback, Tx.Unleak, Conn.Close, Stmt.Close]

/-- Claim C3 counterexample: a connection handle whose underlying close
errors keeps its killer-pool reference and session identifier, and so
does a statement handle — the unleak sequence is skipped on the error
path of Conn.Close and Stmt.Close, refuting the claim that every
terminal operation clears them even on error. -/
theorem C3_counterexample :
    (Conn.Close ⟨5, some 1, "42", 7⟩ (some (Err.sqlErr 3))).2.killerPool = some 1 ∧
    (Conn.Close ⟨5, some 1, "42", 7⟩ (some (Err.sqlErr 3))).2.connectionID = "42" ∧
    (Stmt.Close ⟨6, some 1, "42", 7⟩ (some (Err.sqlErr 3))).2.killerPool = some 1 ∧
    (Stmt.Close ⟨6, some 1, "42", 7⟩ (some (Err.sqlErr 3))).2.connectionID = "42" := by
  decide

/-- Claim C5 (amended): on a live cursor whose cancellation signal has
fired, Columns, ColumnTypes, Scan and Close each invoke the Killer with
the bound killer pool, session identifier and kill-timeout, while Next
and NextResultSet delegate to the underlying cursor without any
cancellation check and never invoke the Killer; when the signal has not
fired no method issues any command. -/
theorem C5_rows_reactive :
    (∀ (resp : Resp) (ce : Err) (kp : Option PoolId) (s : String) (kto : Int)
      (u : Option Err) (cols : Except Err (List String)) (ct : Except Err Nat) (b : Bool),
      (Rows.Scan resp ⟨some ce, kp, s, kto⟩ u).2 = (kill resp kp s kto).2 ∧
      (Rows.Columns resp ⟨some ce, kp, s, kto⟩ cols).2 = (kill resp kp s kto).2 ∧
      (Rows.ColumnTypes resp ⟨some ce, kp, s, kto⟩ ct).2 = (kill resp kp s kto).2 ∧
      (Rows.Close resp ⟨some ce, kp, s, kto⟩ u).2.2 = (kill resp kp s kto).2 ∧
      (Rows.Next ⟨some ce, kp, s, kto⟩ b).2 = [] ∧
      (Rows.NextResultSet ⟨some ce, kp, s, kto⟩ b).2 = []) ∧
    (∀ (resp : Resp) (kp : Option PoolId) (s : String) (kto : Int)
      (u : Option Err) (cols : Except Err (List String)) (ct : Except Err Nat) (b : Bool),
      (Rows.Scan resp ⟨none, kp, s, kto⟩ u).2 = [] ∧
      (Rows.Columns resp ⟨none, kp, s, kto⟩ cols).2 = [] ∧
      (Rows.ColumnTypes resp ⟨none, kp, s, kto⟩ ct).2 = [] ∧
      (Rows.Close resp ⟨none, kp, s, kto⟩ u).2.2 = [] ∧
      (Rows.Next ⟨none, kp, s, kto⟩ b).2 = [] ∧
      (Rows.NextResultSet ⟨none, kp, s, kto⟩ b).2 = []) := by
  constructor <;> intros <;>
    simp [Rows.Scan, Rows.Columns, Rows.ColumnTypes, Rows.Close,
      Rows.Next, Rows.NextResultSet]

/-- Claim C5 counterexample: on a cursor whose cancellation signal has
fired, Next and NextResultSet perform no cancellation check and issue no
command, although invoking the Killer at this state would issue one —
refuting the claim that every subsequent method, cursor advance
included, invokes the Killer when the signal has fired. -/
theorem C5_counterexample :
    (Rows.Next ⟨some Err.canceled, some 1, "42", 0⟩ true).2 = [] ∧
    (Rows.NextResultSet ⟨some Err.canceled, some 1, "42", 0⟩ false).2 = [] ∧
    (kill respNone (some 1) "42" 0).2 ≠ [] := by
  decide

/-- Claim C6 (amended): DB.Conn issues the session-identity query on the
acquired connection before returning; if the acquisition fails, or the
identity query errors, the error is surfaced, the acquired connection is
released back to the pool, and no handle is produced; otherwise —
including when the retrieved identifier is the empty string, which the
source does not reject — the returned handle is bound to the retrieved
identifier, the configured kill-timeout, and the killer pool (the
primary pool when no killer pool is configured). -/
theorem C6_conn_acquisition :
    (∀ (db : DBM) (e : Err) (ir : Except Err String),
      DBM.Conn db (Except.error e) ir = (Except.error e, [])) ∧
    (∀ (db : DBM) (cn : ConnRef) (e : Err),
      DBM.Conn db (Except.ok cn) (Except.error e) =
        (Except.error e, [Event.connAcquire db.DB cn,
          Event.connQuery db.DB cn connectionIDQuery, Event.connRelease db.DB cn])) ∧
    (∀ (d kp : PoolId) (t : Int) (cn : ConnRef) (s : String),
      DBM.Conn ⟨d, some kp, t⟩ (Except.ok cn) (Except.ok s) =
        (Except.ok ⟨cn, some kp, s, t⟩,
         [Event.connAcquire d cn, Event.connQuery d cn connectionIDQuery])) ∧
    (∀ (d : PoolId) (t : Int) (cn : ConnRef) (s : String),
      DBM.Conn ⟨d, none, t⟩ (Except.ok cn) (Except.ok s) =
        (Except.ok ⟨cn, some d, s, t⟩,
         [Event.connAcquire d cn, Event.connQuery d cn connectionIDQuery])) := by
  refine ⟨?_, ?_, ?_, ?_⟩ <;> intros <;> simp [DBM.Conn]

/-- Claim C6 counterexample: when the identity query succeeds with the
empty string, acquisition does not fail — the source checks only for a
query error — and the handle is returned bound to the empty identifier,
refuting the claim that an empty value aborts acquisition. -/
theorem C6_counterexample :
    (DBM.Conn ⟨0, some 1, 9⟩ (Except.ok 7) (Except.ok "")).1 =
      Except.ok ⟨7, some 1, "", 9⟩ := by
  decide

/-- Claim C1, evaluated at the failing input: a connection handle bound
by DB.Conn to session identifier 42 (killer pool 1, kill-timeout 5),
the transaction and the prepared statement derived from it, each with
the cancellation signal firing before the underlying call completes.
Exactly one kill command addressed to the bound identifier is sent, but
each call blocks forever in the deferred returnedChan send instead of
returning ctx.Err to the caller: the kill half of the claim holds on
the code, the return half does not. -/
theorem C1_cancel_deadlock :
    (DBM.Conn ⟨0, some 1, 5⟩ (Except.ok 7) (Except.ok "42")).1 =
      Except.ok ⟨7, some 1, "42", 5⟩ ∧
    Conn.BeginTx ⟨7, some 1, "42", 5⟩ (Except.ok 3) =
      Except.ok ⟨3, some 1, "42", 0, []⟩ ∧
    Conn.PrepareContext ⟨7, some 1, "42", 5⟩ (Except.ok 4) =
      Except.ok ⟨4, some 1, "42", 5⟩ ∧
    Conn.ExecContext respNone ⟨7, some 1, "42", 5⟩
        (RaceOutcome.canceledFirst Err.canceled) =
      (CallResult.blocked, [Event.cmd 1 (PoolCmd.execTimeout 5 killQueryStmt "42")]) ∧
    Tx.ExecContext respNone ⟨3, some 1, "42", 0, []⟩
        (RaceOutcome.canceledFirst Err.canceled) =
      (CallResult.blocked, [Event.cmd 1 (PoolCmd.exec killQueryStmt "42")]) ∧
    Stmt.ExecContext respNone ⟨4, some 1, "42", 5⟩
        (RaceOutcome.canceledFirst Err.canceled) =
      (CallResult.blocked, [Event.cmd 1 (PoolCmd.execTimeout 5 killQueryStmt "42")]) := by
  decide

/-- Claim C4: a statement derived from a transaction through
PrepareContext or StmtContext is recorded in the stmts list, and
committing or rolling back the transaction clears the killer-pool
reference, session identifier and kill-timeout of every recorded
statement — in particular of the derived one, on which no operation was
ever performed — regardless of the underlying result. -/
theorem C4_derived_stmts_cleared :
    ∀ (tx : Tx) (r : StmtRef) (u : Option Err),
      ((Tx.PrepareContext tx (Except.ok r)).1 =
        Except.ok ⟨r, tx.killerPool, tx.connectionID, tx.kto⟩) ∧
      ((Tx.PrepareContext tx (Except.ok r)).2.stmts =
        tx.stmts ++ [⟨r, tx.killerPool, tx.connectionID, tx.kto⟩]) ∧
      ((Tx.StmtContext tx r).2.stmts =
        tx.stmts ++ [⟨r, tx.killerPool, tx.connectionID, tx.kto⟩]) ∧
      (((Tx.Commit (Tx.PrepareContext tx (Except.ok r)).2 u).2.stmts.all stmtCleared)
        = true) ∧
      (((Tx.Rollback (Tx.PrepareContext tx (Except.ok r)).2 u).2.stmts.all stmtCleared)
        = true) ∧
      (((Tx.Commit (Tx.StmtContext tx r).2 u).2.stmts.all stmtCleared) = true) := by
  intro tx r u
  refine ⟨rfl, rfl, rfl, ?_, ?_, ?_⟩ <;>
    simp [Tx.PrepareContext, Tx.StmtContext, Tx.Commit, Tx.Rollback, Tx.Unleak,
      Stmt.Unleak, stmtCleared, List.all_map, Function.comp]

/-- When no acquisition in the window reports the target server
identity, the proxy retry loop runs out of its deadline: the result is
the timeout error and the trace contains no pool-level command. -/
lemma killProxyLoop_noMatch (resp : Resp) (db : PoolId) (cid sid flavor : String)
    (hf : flavor ≠ MariaDB) (acqs : Nat → AcqOutcome) :
    ∀ (d i : Nat), (∀ j, j < d → matchesServer sid (acqs (i + j)) = false) →
      (killProxyLoop resp db cid sid flavor acqs i d).1 = some Err.deadlineExceeded ∧
      (killProxyLoop resp db cid sid flavor acqs i d).2.filter Event.isCmd = [] := by
  intro d
  induction d with
  | zero =>
    intro i _
    simp [killProxyLoop]
  | succ d ih =>
    intro i h
    have h0 : matchesServer sid (acqs i) = false := by
      simpa using h 0 (Nat.succ_pos d)
    have IH := ih (i + 1) (by
      intro j hj
      rw [show i + 1 + j = i + (j + 1) by omega]
      exact h (j + 1) (by omega))
    cases ha : acqs i with
    | connErr =>
      simpa [killProxyLoop, ha] using IH
    | conn idRes =>
      cases idRes with
      | error e =>
        simp [killProxyLoop, ha, determineServerID, hf, List.filter_cons,
          Event.isCmd, IH.1, IH.2]
      | ok cur =>
        have hcur : cur ≠ sid := by
          intro hEq
          rw [ha, hEq] at h0
          simp [matchesServer] at h0
        by_cases hemp : cur = ""
        · simp [killProxyLoop, ha, determineServerID, hf, hemp, List.filter_cons,
            Event.isCmd, IH.1, IH.2]
        · simp [killProxyLoop, ha, determineServerID, hf, hemp, hcur,
            List.filter_cons, Event.isCmd, IH.1, IH.2]

/-- When the first acquisition reporting the target server identity lies
inside the deadline window, the loop returns the result of the pool-level
kill command and that command is the only pool-level command in the
trace. -/
lemma killProxyLoop_match (resp : Resp) (db : PoolId) (cid sid flavor : String)
    (hf : flavor ≠ MariaDB) (hsid : sid ≠ "") (acqs : Nat → AcqOutcome) :
    ∀ (m i d : Nat), m < d →
      (∀ j, j < m → matchesServer sid (acqs (i + j)) = false) →
      matchesServer sid (acqs (i + m)) = true →
      (killProxyLoop resp db cid sid flavor acqs i d).1 =
        resp db (PoolCmd.exec killQueryStmt cid) ∧
      (killProxyLoop resp db cid sid flavor acqs i d).2.filter Event.isCmd =
        [Event.cmd db (PoolCmd.exec killQueryStmt cid)] := by
  intro m
  induction m with
  | zero =>
    intro i d hd _ hm
    obtain ⟨d', rfl⟩ : ∃ d', d = d' + 1 := ⟨d - 1, by omega⟩
    rw [Nat.add_zero] at hm
    cases ha : acqs i with
    | connErr =>
      rw [ha] at hm
      simp [matchesServer] at hm
    | conn idRes =>
      cases idRes with
      | error e =>
        rw [ha] at hm
        simp [matchesServer] at hm
      | ok cur =>
        have hcs : cur = sid := by
          rw [ha] at hm
          simpa [matchesServer] using hm
        subst hcs
        simp [killProxyLoop, ha, determineServerID, hf, hsid, List.filter_cons,
          Event.isCmd]
  | succ m ih =>
    intro i d hd h hm
    obtain ⟨d', rfl⟩ : ∃ d', d = d' + 1 := ⟨d - 1, by omega⟩
    have h0 : matchesServer sid (acqs i) = false := by
      simpa using h 0 (Nat.succ_pos m)
    have IH := ih (i + 1) d' (by omega)
      (by
        intro j hj
        rw [show i + 1 + j = i + (j + 1) by omega]
        exact h (j + 1) (by omega))
      (by
        rw [show i + 1 + m = i + (m + 1) by omega]
        exact hm)
    cases ha : acqs i with
    | connErr =>
      simpa [killProxyLoop, ha] using IH
    | conn idRes =>
      cases idRes with
      | error e =>
        simp [killProxyLoop, ha, determineServerID, hf, List.filter_cons,
          Event.isCmd, IH.1, IH.2]
      | ok cur =>
        have hcur : cur ≠ sid := by
          intro hEq
          rw [ha, hEq] at h0
          simp [matchesServer] at h0
        by_cases hemp : cur = ""
        · simp [killProxyLoop, ha, determineServerID, hf, hemp, List.filter_cons,
            Event.isCmd, IH.1, IH.2]
        · simp [killProxyLoop, ha, determineServerID, hf, hemp, hcur,
            List.filter_cons, Event.isCmd, IH.1, IH.2]

/-- Claim C2 (amended): in proxy-verified mode with a non-MariaDB flavor
the Killer repeatedly acquires a killer-pool connection, queries its
server identity, and retries on a mismatch or identity-query failure; if
no acquisition before the deadline reports the target server identity,
the result is the timeout error and no termination command is issued; on
the first acquisition reporting the target identity the Killer issues
the termination command as a single pool-level Exec on the killer pool —
the source sends it through the pool rather than over the verified
connection — and returns the result of that command. -/
theorem C2_proxy_kill (resp : Resp) (db : PoolId) (cid sid flavor : String) (kt : Int)
    (acqs : Nat → AcqOutcome) (hcid : cid ≠ "") (hf : flavor ≠ MariaDB)
    (hsid : sid ≠ "") :
    (∀ d, (∀ j, j < d → matchesServer sid (acqs j) = false) →
      (killP resp db cid sid flavor (some kt) acqs d).1 = some Err.deadlineExceeded ∧
      (killP resp db cid sid flavor (some kt) acqs d).2.filter Event.isCmd = []) ∧
    (∀ m d, m < d → (∀ j, j < m → matchesServer sid (acqs j) = false) →
      matchesServer sid (acqs m) = true →
      (killP resp db cid sid flavor (some kt) acqs d).1 =
        resp db (PoolCmd.exec killQueryStmt cid) ∧
      (killP resp db cid sid flavor (some kt) acqs d).2.filter Event.isCmd =
        [Event.cmd db (PoolCmd.exec killQueryStmt cid)]) := by
  have hP : ∀ d, killP resp db cid sid flavor (some kt) acqs d =
      killProxyLoop resp db cid sid flavor acqs 0 d := by
    intro d
    simp [killP, hcid, hf]
  constructor
  · intro d h
    rw [hP]
    exact killProxyLoop_noMatch resp db cid sid flavor hf acqs d 0 (by simpa using h)
  · intro m d hd h hm
    rw [hP]
    exact killProxyLoop_match resp db cid sid flavor hf hsid acqs m 0 d hd
      (by simpa using h) (by simpa using hm)

/-- Witness for C2 at the spec scenario: identities wrong, wrong,
correct, match on the third acquisition within a deadline of five
iterations. -/
theorem C2_witness :
    (killP respNone 1 "42" "correct" "mysql" (some 5) acqsWWC 5).1 =
      respNone 1 (PoolCmd.exec killQueryStmt "42") ∧
    (killP respNone 1 "42" "correct" "mysql" (some 5) acqsWWC 5).2.filter Event.isCmd =
      [Event.cmd 1 (PoolCmd.exec killQueryStmt "42")] := by
  exact (C2_proxy_kill respNone 1 "42" "correct" "mysql" 5 acqsWWC (by decide)
    (by decide) (by decide)).2 2 5 (by decide) (by decide) (by decide)

/-- Claim C2 counterexample: at acquisitions reporting identities wrong,
wrong, correct the Killer succeeds and a pool-level termination command
appears in the trace, but no command is issued over the matched acquired
connection (acquisition 2) — refuting the claim that the termination
command is issued over that specific connection. -/
theorem C2_counterexample :
    (killP respNone 1 "42" "correct" "mysql" (some 5) acqsWWC 5).1 = none ∧
    ((killP respNone 1 "42" "correct" "mysql" (some 5) acqsWWC 5).2.any Event.isCmd)
      = true ∧
    killSentOverConn (killP respNone 1 "42" "correct" "mysql" (some 5) acqsWWC 5).2
      1 2 "42" = false := by
  decide

end MysqlGo
